import Mathlib

/-!
Verification of the Kong adversarial validator (kong/adversarial.py).

The Python module is shallowly embedded here.  Python data passed to the
validator (the `analysis` and `raw_data` arguments) is modelled by the
JSON-like type `JValue`; Python floats and ints are both modelled as
rationals (the module only adds, multiplies, divides and compares them, and
every constant in it is a decimal literal).  Python operations that can
raise `TypeError`/`KeyError`/`AttributeError` on wrong-typed values are
modelled in the `Except PyErr` monad; a `match ... | .error e => .error e`
chain models ordinary Python exception propagation.  Sequential statements
of the source are modelled by `let` bindings in source order, and each
conditional block of a scorer is a separate named definition so that
theorems can refer to it.
-/

/-- Kinds of Python exceptions the embedded code can raise. -/
inductive PyErr where
  | typeError
  | keyError
  | attributeError
deriving DecidableEq

/-- JSON-like Python values: the data the validator consumes.  Numbers
(`int` and `float` alike) are rationals; dicts are association lists in
insertion order (Python dicts preserve insertion order and have unique
keys). -/
inductive JValue where
  | null
  | bool (b : Bool)
  | num (q : ℚ)
  | str (s : String)
  | arr (xs : List JValue)
  | obj (fields : List (String × JValue))

/-- A Python dict with string keys, e.g. the `analysis` / `raw_data`
arguments. -/
abbrev JDict := List (String × JValue)

/-- Python truthiness (`bool(v)`). -/
def JValue.truthy : JValue → Bool
  | .null => false
  | .bool b => b
  | .num q => decide (q ≠ 0)
  | .str s => decide (s ≠ "")
  | .arr xs => !xs.isEmpty
  | .obj fs => !fs.isEmpty

/-- Python `d.get(key, default)` on a dict. -/
def jGet (d : JDict) (key : String) (default : JValue) : JValue :=
  match List.lookup key d with
  | some v => v
  | none => default

/-- Python `a or b`. -/
def pyOr (a b : JValue) : JValue :=
  if a.truthy then a else b

/-- Numeric view of a value for comparisons with a number: Python `bool`
is an `int` subclass (`True == 1`), other non-numbers raise `TypeError`
when compared with a number. -/
def pyNum : JValue → Option ℚ
  | .num q => some q
  | .bool b => some (if b then 1 else 0)
  | _ => none

/-- Python `v > q` for a numeric literal `q`: `TypeError` unless `v` is a
number (or bool). -/
def pyGt (v : JValue) (q : ℚ) : Except PyErr Bool :=
  match pyNum v with
  | some x => .ok (decide (q < x))
  | none => .error .typeError

/-- Python `v < q` for a numeric literal `q`. -/
def pyLt (v : JValue) (q : ℚ) : Except PyErr Bool :=
  match pyNum v with
  | some x => .ok (decide (x < q))
  | none => .error .typeError

/-- Python `len(v)`: strings, lists and dicts have a length; numbers,
booleans and `None` raise `TypeError`. -/
def pyLen : JValue → Except PyErr ℕ
  | .str s => .ok s.length
  | .arr xs => .ok xs.length
  | .obj fs => .ok fs.length
  | _ => .error .typeError

/-- Total variant of `len`, only used to render a length inside an issue
string after a guard has already evaluated `len` successfully. -/
def lenOrZero : JValue → ℕ
  | .str s => s.length
  | .arr xs => xs.length
  | .obj fs => fs.length
  | _ => 0

/-- Python iteration (`for x in v`): lists yield elements, strings yield
one-character strings, dicts yield their keys; other values raise
`TypeError`. -/
def pyIter : JValue → Except PyErr (List JValue)
  | .arr xs => .ok xs
  | .str s => .ok (s.data.map fun c => .str (String.singleton c))
  | .obj fs => .ok (fs.map fun kv => .str kv.1)
  | _ => .error .typeError

/-- Python `v[key]`: `KeyError` for a missing key, `TypeError` when `v` is
not a dict. -/
def pySubscript (v : JValue) (key : String) : Except PyErr JValue :=
  match v with
  | .obj fs =>
    match List.lookup key fs with
    | some x => .ok x
    | none => .error .keyError
  | _ => .error .typeError

/-- Requires a `str` value; anything else raises (`.strip()` on a
non-string is an `AttributeError`). -/
def asPyString : JValue → Except PyErr String
  | .str s => .ok s
  | _ => .error .attributeError

/-- ASCII lowercasing, modelling Python `str.lower()` on the ASCII text
this module manipulates. -/
def strLower (s : String) : String :=
  String.mk (s.data.map Char.toLower)

/-- Whether a character list starts with the given needle. -/
def charsStartWith : List Char → List Char → Bool
  | _, [] => true
  | [], _ :: _ => false
  | a :: as, b :: bs => a == b && charsStartWith as bs

/-- Whether `needle` occurs inside the list (substring search). -/
def charsContain (needle : List Char) : List Char → Bool
  | [] => needle.isEmpty
  | a :: as => charsStartWith (a :: as) needle || charsContain needle as

/-- Python `needle in hay` on strings. -/
def strContains (hay needle : String) : Bool :=
  charsContain needle.data hay.data

/-- Python `s.strip()` (whitespace from both ends). -/
def strStrip (s : String) : String :=
  String.mk (((s.data.dropWhile Char.isWhitespace).reverse.dropWhile
    Char.isWhitespace).reverse)

/-- Splitting a character list at a separator character. -/
def splitCharsOn (c : Char) : List Char → List (List Char)
  | [] => [[]]
  | x :: xs =>
    match splitCharsOn c xs with
    | [] => [[]]
    | g :: gs => if x == c then [] :: g :: gs else (x :: g) :: gs

/-- Python `s.split(sep)` for a one-character separator. -/
def strSplitOn (s : String) (c : Char) : List String :=
  (splitCharsOn c s.data).map String.mk

/-- Smallest `k` (up to the fuel) with `den ∣ 10 ^ k`, used to print a
rational in decimal notation. -/
def decimalExpAux (den : ℕ) : ℕ → ℕ → Option ℕ
  | _, 0 => none
  | k, fuel + 1 =>
    if (10 ^ k) % den = 0 then some k else decimalExpAux den (k + 1) fuel

/-- Renders `digits` as a decimal with `k` fractional digits. -/
def natDecimalString (digits : ℕ) (k : ℕ) : String :=
  if k = 0 then toString digits
  else
    let s := toString digits
    let s := if s.length ≤ k then
        String.mk (List.replicate (k + 1 - s.length) '0') ++ s
      else s
    let cut := s.data.length - k
    String.mk (s.data.take cut) ++ "." ++ String.mk (s.data.drop cut)

/-- Python `str(x)` for a number.  Integers print without a decimal point;
other rationals with a power-of-ten denominator print in decimal notation
(which agrees with `repr` of the Python float literal that produced them in
every value this module renders). -/
def ratStr (q : ℚ) : String :=
  if q.den = 1 then toString q.num
  else
    match decimalExpAux q.den 1 40 with
    | some k =>
      let scaled := (q.num * ((10 ^ k : ℕ) : ℤ)) / (q.den : ℤ)
      if q.num < 0 then "-" ++ natDecimalString scaled.natAbs k
      else natDecimalString scaled.natAbs k
    | none => toString q.num ++ "/" ++ toString q.den

/-- Python `str(v)` / `repr(v)` (the flag selects repr, which quotes
strings), depth-limited by fuel; the fuel is never exhausted on the
finitely deep values the claims evaluate. -/
def pyStrCore : ℕ → Bool → JValue → String
  | _, _, .null => "None"
  | _, _, .bool true => "True"
  | _, _, .bool false => "False"
  | _, _, .num q => ratStr q
  | _, false, .str s => s
  | _, true, .str s => "\x27" ++ s ++ "\x27"
  | 0, _, .arr _ => "[...]"
  | 0, _, .obj _ => "\x7b...\x7d"
  | fuel + 1, _, .arr xs =>
    "[" ++ String.intercalate ", " (xs.map (pyStrCore fuel true)) ++ "]"
  | fuel + 1, _, .obj fs =>
    "\x7b" ++ String.intercalate ", "
      (fs.map fun kv => "\x27" ++ kv.1 ++ "\x27: " ++ pyStrCore fuel true kv.2)
    ++ "\x7d"

/-- Python `str(v)`. -/
def pyStr (v : JValue) : String := pyStrCore 99 false v

/-- Round half to even (Python `round` and `format` tie-breaking). -/
def roundHalfEven (q : ℚ) : ℤ :=
  let f := ⌊q⌋
  let r := q - f
  if r < 1 / 2 then f
  else if 1 / 2 < r then f + 1
  else if f % 2 = 0 then f else f + 1

/-- Python `round(x, 3)` on the rational model. -/
def round3 (q : ℚ) : ℚ := (roundHalfEven (q * 1000) : ℚ) / 1000

/-- Python `format(x, ".0%")` for a number (used in issue f-strings; the
guards of those f-strings have already checked the value is numeric). -/
def fmtPercent : JValue → String
  | .num q => toString (roundHalfEven (q * 100)) ++ "%"
  | .bool true => "100%"
  | .bool false => "0%"
  | _ => "?"

-- SECTION: completeness scorer (AdversarialValidator._check_completeness)

/-- Reserved metadata keys never treated as sources
(adversarial.py lines 156-158). -/
def reservedKeys : List String :=
  ["data_quality_score", "sources_failed", "sources_successful",
   "collection_timestamp", "ticker", "entity_id"]

/-- The per-entry test of lines 155-165: a top-level entry of `raw_data`
counts as an available source when its value is truthy, its key is not
reserved, and — for dict values — the `success` flag (defaulting to true)
is truthy and at least one non-`success` entry is truthy. -/
def isAvailableSource (kv : String × JValue) : Bool :=
  kv.2.truthy && !(reservedKeys.contains kv.1) &&
    (match kv.2 with
     | .obj fs =>
       (jGet fs "success" (.bool true)).truthy &&
         fs.any fun f => f.1 != "success" && f.2.truthy
     | _ => true)

/-- Strategy 1 (lines 153-165): the available source set, as the list of
keys of the entries passing `isAvailableSource`, in insertion order. -/
def availableSources (raw_data : JDict) : List String :=
  (raw_data.filter isAvailableSource).map fun kv => kv.1

/-- The fixed semantic dictionary of lines 168-178. -/
def semantic_mappings : List (String × List String) :=
  [("earnings", ["earnings", "eps", "revenue", "quarterly", "q1", "q2",
                 "q3", "q4", "profit", "income", "financial"]),
   ("news", ["news", "sentiment", "media", "coverage", "article", "press"]),
   ("analyst", ["analyst", "rating", "target", "consensus", "upgrade",
                "downgrade", "buy", "sell", "hold", "overweight",
                "underweight"]),
   ("insider", ["insider", "transaction", "executive", "director",
                "officer", "purchase", "sale", "filing"]),
   ("sec", ["sec", "filing", "10-k", "10-q", "8-k", "proxy", "edgar"]),
   ("filings", ["filing", "regulatory", "disclosure", "sec", "annual",
                "quarterly"])]

/-- Python `semantic_mappings.get(key, [key])`. -/
def semanticRelated (key : String) : List String :=
  match List.lookup key semantic_mappings with
  | some terms => terms
  | none => [key]

/-- The flattener of lines 181-193: concatenates keys and truthy leaf
values, recursing into dicts and lists; `depth > 10` falls back to
`str(obj)`.  The fuel equals `11 - depth`. -/
def flatten_to_string : ℕ → JValue → String
  | 0, obj => pyStrCore 99 false obj
  | fuel + 1, .obj fs =>
    String.intercalate " "
      (fs.flatMap fun kv => [kv.1, flatten_to_string fuel kv.2])
  | fuel + 1, .arr xs =>
    String.intercalate " " (xs.map (flatten_to_string fuel))
  | _ + 1, v => if v.truthy then pyStr v else ""

/-- `flatten_to_string(analysis).lower()` (line 195). -/
def analysisTextOf (analysis : JDict) : String :=
  strLower (flatten_to_string 11 (.obj analysis))

/-- The nested key collector of lines 217-225 (lowercased keys, dicts
only, `depth > 5` stops).  The fuel equals `6 - depth`. -/
def collect_keys : ℕ → JValue → List String
  | 0, _ => []
  | fuel + 1, .obj fs =>
    fs.flatMap fun kv => strLower kv.1 :: collect_keys fuel kv.2
  | _ + 1, _ => []

/-- The key set collected from the analysis record. -/
def analysisKeysOf (analysis : JDict) : List String :=
  collect_keys 6 (.obj analysis)

/-- The three fallback reference strategies of lines 197-230 for one
source: verbatim substring, at least two semantic terms, or a structural
key match. -/
def isReferenced (analysis_text : String) (analysis_keys : List String)
    (source : String) : Bool :=
  let source_lower := strLower source
  if strContains analysis_text source_lower then true
  else
    let related_terms := semanticRelated source_lower
    if 2 ≤ (related_terms.filter fun t => strContains analysis_text t).length
    then true
    else
      analysis_keys.contains source_lower ||
        related_terms.any fun term =>
          analysis_keys.any fun key => strContains key term

/-- The referenced subset of the available sources. -/
def sourcesReferenced (analysis : JDict) (raw_data : JDict) : List String :=
  (availableSources raw_data).filter
    (isReferenced (analysisTextOf analysis) (analysisKeysOf analysis))

/-- The fixed critical-source set of line 239. -/
def critical_sources : List String :=
  ["earnings", "filings", "analyst", "news", "insider", "sec"]

/-- Issue emitted for an unreferenced critical source (lines 245-247). -/
def criticalSourceIssue (source : String) : String :=
  s!"Critical data source \x27{source}\x27 available but not clearly analyzed"

/-- Issue emitted for a missing expected field (line 256). -/
def expectedFieldIssue (field : String) : String :=
  s!"Expected field \x27{field}\x27 not addressed in analysis"

/-- `AdversarialValidator._check_completeness` (lines 138-258).  It is
total: no operation in it can raise. -/
def check_completeness (analysis raw_data : JDict)
    (expected_fields : Option (List String)) : ℚ × List String :=
  let available_sources := availableSources raw_data
  let sources_referenced := sourcesReferenced analysis raw_data
  let completeness : ℚ :=
    if available_sources.isEmpty then 1
    else (sources_referenced.length : ℚ) / (available_sources.length : ℚ)
  let critical_issues :=
    (available_sources.filter fun source =>
      (critical_sources.contains (strLower source) ||
        critical_sources.any fun crit => strContains (strLower source) crit) &&
      !(sources_referenced.contains source)).map criticalSourceIssue
  let expected_issues :=
    (match expected_fields with
     | some fields => fields
     | none => []).filterMap fun field =>
      let related := semanticRelated (strLower field)
      if related.any fun term => strContains (analysisTextOf analysis) term
      then none
      else some (expectedFieldIssue field)
  (completeness, critical_issues ++ expected_issues)

-- SECTION: consistency scorer (AdversarialValidator._check_consistency)

/-- Python `analysis.get("score") or analysis.get("quality_score", 0)`
(line 271). -/
def scoreOf (analysis : JDict) : JValue :=
  pyOr (jGet analysis "score" .null) (jGet analysis "quality_score" (.num 0))

/-- Python `analysis.get("findings", []) or analysis.get("key_findings", [])`
(lines 272, 350, 359). -/
def findingsOf (analysis : JDict) : JValue :=
  pyOr (jGet analysis "findings" (.arr []))
    (jGet analysis "key_findings" (.arr []))

/-- Guard of lines 281: `confidence and confidence > 0.8 and
data_quality < 50`, evaluated left to right with Python short-circuiting
(so a wrong-typed `confidence` raises only when it is truthy, and
`data_quality` is compared only when the first two conjuncts hold). -/
def consistencyRule1 (analysis raw_data : JDict) : Except PyErr Bool :=
  let confidence := jGet analysis "confidence" (.num 0)
  let data_quality := jGet raw_data "data_quality_score" (.num 100)
  if confidence.truthy then
    match pyGt confidence (8/10) with
    | .error e => .error e
    | .ok true => pyLt data_quality 50
    | .ok false => .ok false
  else .ok false

/-- Guard of line 288: `score and score > 7 and len(sources_failed) > 2`. -/
def consistencyRule2 (analysis raw_data : JDict) : Except PyErr Bool :=
  let score := scoreOf analysis
  let sources_failed := jGet raw_data "sources_failed" (.arr [])
  if score.truthy then
    match pyGt score 7 with
    | .error e => .error e
    | .ok true =>
      match pyLen sources_failed with
      | .error e => .error e
      | .ok n => .ok (decide (2 < n))
    | .ok false => .ok false
  else .ok false

/-- Guard of line 295: `confidence and confidence > 0.8 and
len(findings) < 2`. -/
def consistencyRule3 (analysis : JDict) : Except PyErr Bool :=
  let confidence := jGet analysis "confidence" (.num 0)
  let findings := findingsOf analysis
  if confidence.truthy then
    match pyGt confidence (8/10) with
    | .error e => .error e
    | .ok true =>
      match pyLen findings with
      | .error e => .error e
      | .ok n => .ok (decide (n < 2))
    | .ok false => .ok false
  else .ok false

/-- Issue string of lines 282-284. -/
def highConfLowQualityIssue (confidence data_quality : JValue) : String :=
  let c := fmtPercent confidence
  let d := pyStr data_quality
  s!"High confidence ({c}) despite low data quality ({d}%)"

/-- Issue string of lines 289-291. -/
def highScoreFailedIssue (score sources_failed : JValue) : String :=
  let s := pyStr score
  let n := lenOrZero sources_failed
  s!"High score ({s}) but {n} data sources failed"

/-- Issue string of lines 296-298. -/
def highConfFewFindingsIssue (confidence findings : JValue) : String :=
  let c := fmtPercent confidence
  let n := lenOrZero findings
  s!"High confidence ({c}) but only {n} findings"

/-- The fixed antonym pairs of lines 303-308. -/
def contradiction_pairs : List (String × String) :=
  [("positive", "negative"), ("increasing", "decreasing"),
   ("strong", "weak"), ("improving", "declining")]

/-- Issue string of lines 314-316. -/
def contradictionIssue (pos neg : String) : String :=
  s!"Potentially contradictory terms in findings: \x27{pos}\x27 and \x27{neg}\x27"

/-- The contradiction loop of lines 310-317: for each pair with both words
in the findings string, append an issue and discount the score by 0.9. -/
def applyContradictions (findings_str : String) :
    List (String × String) → ℚ × List String → ℚ × List String
  | [], acc => acc
  | (pos, neg) :: rest, (score, issues) =>
    if strContains findings_str pos && strContains findings_str neg then
      applyContradictions findings_str rest
        (score * (9/10), issues ++ [contradictionIssue pos neg])
    else
      applyContradictions findings_str rest (score, issues)

/-- `AdversarialValidator._check_consistency` (lines 260-319). -/
def check_consistency (analysis raw_data : JDict) :
    Except PyErr (ℚ × List String) :=
  let confidence := jGet analysis "confidence" (.num 0)
  let score := scoreOf analysis
  let findings := findingsOf analysis
  let data_quality := jGet raw_data "data_quality_score" (.num 100)
  let sources_failed := jGet raw_data "sources_failed" (.arr [])
  match consistencyRule1 analysis raw_data with
  | .error e => .error e
  | .ok b1 =>
    let score1 : ℚ := if b1 then 1 * (6/10) else 1
    let issues1 := if b1 then [highConfLowQualityIssue confidence data_quality]
      else []
    match consistencyRule2 analysis raw_data with
    | .error e => .error e
    | .ok b2 =>
      let score2 := if b2 then score1 * (7/10) else score1
      let issues2 := issues1 ++
        (if b2 then [highScoreFailedIssue score sources_failed] else [])
      match consistencyRule3 analysis with
      | .error e => .error e
      | .ok b3 =>
        let score3 := if b3 then score2 * (8/10) else score2
        let issues3 := issues2 ++
          (if b3 then [highConfFewFindingsIssue confidence findings] else [])
        match pyIter findings with
        | .error e => .error e
        | .ok items =>
          let findings_str :=
            strLower (String.intercalate " " (items.map pyStr))
          .ok (applyContradictions findings_str contradiction_pairs
            (score3, issues3))

-- SECTION: logic scorer (AdversarialValidator._check_logic)

/-- Guard of lines 339-340: `confidence and confidence > 0.9` followed by
`len(sources_successful) < 4`. -/
def logicRule1 (analysis raw_data : JDict) : Except PyErr Bool :=
  let confidence := jGet analysis "confidence" (.num 0)
  let sources_successful := jGet raw_data "sources_successful" (.arr [])
  if confidence.truthy then
    match pyGt confidence (9/10) with
    | .error e => .error e
    | .ok true =>
      match pyLen sources_successful with
      | .error e => .error e
      | .ok n => .ok (decide (n < 4))
    | .ok false => .ok false
  else .ok false

/-- Guard of lines 348-351: `score` truthy, `score > 9 or score < 1`, and
`len(findings) < 3`. -/
def logicRule2 (analysis : JDict) : Except PyErr Bool :=
  let score := scoreOf analysis
  if score.truthy then
    match pyGt score 9 with
    | .error e => .error e
    | .ok hi =>
      match (if hi then .ok true else pyLt score 1 :
          Except PyErr Bool) with
      | .error e => .error e
      | .ok extreme =>
        if extreme then
          match pyLen (findingsOf analysis) with
          | .error e => .error e
          | .ok n => .ok (decide (n < 3))
        else .ok false
  else .ok false

/-- Guard of line 361: `recommendations and not findings`
(truthiness only, cannot raise). -/
def logicRule3 (analysis : JDict) : Bool :=
  (jGet analysis "recommendations" (.arr [])).truthy &&
    !(findingsOf analysis).truthy

/-- Issue string of lines 341-344. -/
def veryHighConfIssue (confidence sources_successful : JValue) : String :=
  let c := fmtPercent confidence
  let n := lenOrZero sources_successful
  s!"Very high confidence ({c}) with limited data sources ({n} successful)"

/-- Issue string of lines 352-354. -/
def extremeScoreIssue (score : JValue) : String :=
  let s := pyStr score
  s!"Extreme score ({s}) without sufficient supporting findings"

/-- `AdversarialValidator._check_logic` (lines 321-365).  The
`data_quality` read of line 336 (default 0) is bound and never used,
exactly as in the source. -/
def check_logic (analysis raw_data : JDict) :
    Except PyErr (ℚ × List String) :=
  let confidence := jGet analysis "confidence" (.num 0)
  let score := scoreOf analysis
  let sources_successful := jGet raw_data "sources_successful" (.arr [])
  let _data_quality := jGet raw_data "data_quality_score" (.num 0)
  match logicRule1 analysis raw_data with
  | .error e => .error e
  | .ok b1 =>
    let score1 : ℚ := if b1 then 1 * (7/10) else 1
    let issues1 :=
      if b1 then [veryHighConfIssue confidence sources_successful] else []
    match logicRule2 analysis with
    | .error e => .error e
    | .ok b2 =>
      let score2 := if b2 then score1 * (6/10) else score1
      let issues2 := issues1 ++ (if b2 then [extremeScoreIssue score] else [])
      let b3 := logicRule3 analysis
      let score3 := if b3 then score2 * (7/10) else score2
      let issues3 := issues2 ++
        (if b3 then ["Recommendations provided without supporting findings"]
         else [])
      .ok (score3, issues3)

-- SECTION: adversarial question generator
-- (AdversarialValidator._generate_adversarial_questions)

/-- Question of lines 379-381. -/
def failedSourcesQuestion (n : ℕ) : String :=
  s!"How confident can we be with {n} data sources unavailable?"

/-- Question of lines 385-387. -/
def dataQualityQuestion (data_quality : JValue) : String :=
  let d := pyStr data_quality
  s!"Data quality is only {d}% - what are we potentially missing?"

/-- The guard of line 384: `data_quality < 80` with
`data_quality = raw_data.get("data_quality_score", 100)`; this comparison
is evaluated unconditionally. -/
def dataQualityLow (raw_data : JDict) : Except PyErr Bool :=
  pyLt (jGet raw_data "data_quality_score" (.num 100)) 80

/-- The four fixed temporal/scope questions of lines 390-395, in order. -/
def temporalScopeQuestions : List String :=
  ["Is this analysis based on current data or historical trends?",
   "How might this conclusion change in 3-6 months?",
   "What factors outside the available data could affect this conclusion?",
   "How does this compare to industry peers/benchmarks?"]

/-- Question of line 400. -/
def confLoweringQuestion : String :=
  "What would cause you to lower your confidence in this analysis?"

/-- Question of line 402. -/
def confRaisingQuestion : String :=
  "What additional data would increase confidence?"

/-- The confidence branch of lines 398-402: `if confidence and
confidence > 0.8` emit the lowering question, `elif confidence and
confidence < 0.5` emit the raising question. -/
def confidenceQuestions (confidence : JValue) : Except PyErr (List String) :=
  if confidence.truthy then
    match pyGt confidence (8/10) with
    | .error e => .error e
    | .ok true => .ok [confLoweringQuestion]
    | .ok false =>
      match pyLt confidence (5/10) with
      | .error e => .error e
      | .ok true => .ok [confRaisingQuestion]
      | .ok false => .ok []
  else .ok []

/-- Question of line 406. -/
def contradictionMetaQuestion : String :=
  "Are the contradictions in findings a bug or a feature?"

/-- `AdversarialValidator._generate_adversarial_questions`
(lines 367-408). -/
def generate_adversarial_questions (analysis raw_data : JDict)
    (existing_issues : List String) : Except PyErr (List String) :=
  let sources_failed := jGet raw_data "sources_failed" (.arr [])
  match (if sources_failed.truthy then
      match pyLen sources_failed with
      | .error e => .error e
      | .ok n => .ok [failedSourcesQuestion n]
    else .ok [] : Except PyErr (List String)) with
  | .error e => .error e
  | .ok failed_questions =>
    match dataQualityLow raw_data with
    | .error e => .error e
    | .ok dq_low =>
      let data_quality := jGet raw_data "data_quality_score" (.num 100)
      let dq_questions :=
        if dq_low then [dataQualityQuestion data_quality] else []
      match confidenceQuestions (jGet analysis "confidence" (.num 0)) with
      | .error e => .error e
      | .ok confidence_questions =>
        let contra_questions :=
          if existing_issues.any fun issue =>
              strContains (strLower issue) "contradictory"
          then [contradictionMetaQuestion] else []
        .ok (failed_questions ++ (dq_questions ++ (temporalScopeQuestions ++
          (confidence_questions ++ contra_questions))))

-- SECTION: recommendations, configuration, validate

/-- `AdversarialValidator._generate_recommendations` (lines 410-439):
independent threshold checks, falling back to a single APPROVED entry. -/
def generate_recommendations (completeness consistency logic : ℚ)
    (issues questions : List String) : List String :=
  let recommendations :=
    (if completeness < 8/10 then
      ["ADD_DATA: Collect missing data sources before reanalysis"] else []) ++
    ((if consistency < 7/10 then
      ["REVIEW: Manual review needed for inconsistencies"] else []) ++
    ((if logic < 7/10 then
      ["RERUN: Conclusions may not follow from evidence"] else []) ++
    ((if 5 < issues.length then
      ["ESCALATE: Too many issues for automated resolution"] else []) ++
    (if 4 < questions.length then
      ["DEEP_DIVE: Many unanswered questions require investigation"]
     else []))))
  if recommendations.isEmpty then
    ["APPROVED: Analysis passes adversarial validation"]
  else recommendations

/-- The five construction-time tunables of `AdversarialValidator.__init__`
(lines 44-56). -/
structure AdversarialValidator where
  completeness_weight : ℚ
  consistency_weight : ℚ
  logic_weight : ℚ
  confidence_threshold : ℚ
  max_issues_before_rerun : ℕ

/-- The Python default configuration: weights 0.4/0.3/0.3, threshold 0.7,
max issues 3. -/
def defaultValidator : AdversarialValidator :=
  { completeness_weight := 4/10
    consistency_weight := 3/10
    logic_weight := 3/10
    confidence_threshold := 7/10
    max_issues_before_rerun := 3 }

/-- The `ValidationResult` dataclass (lines 19-29). -/
structure ValidationResult where
  overall_confidence : ℚ
  completeness_score : ℚ
  consistency_score : ℚ
  logic_score : ℚ
  issues_found : List String
  adversarial_questions : List String
  recommended_actions : List String
  should_rerun : Bool

/-- `AdversarialValidator.validate` (lines 58-136): run the three checks,
concatenate issues in order, generate questions, weight-sum the scores,
subtract the capped issue penalty, clamp at 0, decide the rerun flag
against the raw (pre-rounding) value, and round all four stored scores to
3 decimal places.  `entity_id` is accepted and unused, as in the source. -/
def validate (v : AdversarialValidator) (entity_id : String)
    (analysis raw_data : JDict) (expected_fields : Option (List String)) :
    Except PyErr ValidationResult :=
  let completeness_score := (check_completeness analysis raw_data
    expected_fields).1
  let completeness_issues := (check_completeness analysis raw_data
    expected_fields).2
  match check_consistency analysis raw_data with
  | .error e => .error e
  | .ok cons =>
    match check_logic analysis raw_data with
    | .error e => .error e
    | .ok lg =>
      let issues := completeness_issues ++ (cons.2 ++ lg.2)
      match generate_adversarial_questions analysis raw_data issues with
      | .error e => .error e
      | .ok adversarial_questions =>
        let overall := completeness_score * v.completeness_weight +
          cons.1 * v.consistency_weight + lg.1 * v.logic_weight
        let issue_penalty := min ((issues.length : ℚ) * (5/100)) (3/10)
        let overall_confidence := max 0 (overall - issue_penalty)
        let should_rerun :=
          decide (overall_confidence < v.confidence_threshold) ||
          decide (v.max_issues_before_rerun < issues.length)
        let recommendations := generate_recommendations completeness_score
          cons.1 lg.1 issues adversarial_questions
        .ok {
          overall_confidence := round3 overall_confidence
          completeness_score := round3 completeness_score
          consistency_score := round3 cons.1
          logic_score := round3 lg.1
          issues_found := issues
          adversarial_questions := adversarial_questions
          recommended_actions := recommendations
          should_rerun := should_rerun }

-- SECTION: LLM-backed question generator
-- (OllamaAdversarialValidator._generate_adversarial_questions)

/-- The response handling of lines 544-545:
`response["message"]["content"].strip().split("\n")`, strip each line,
drop blanks, keep the first three. -/
def extractLlmQuestions (response : JValue) : Except PyErr (List String) :=
  match pySubscript response "message" with
  | .error e => .error e
  | .ok message =>
    match pySubscript message "content" with
    | .error e => .error e
    | .ok content =>
      match asPyString content with
      | .error e => .error e
      | .ok s =>
        let llm_questions :=
          (((strStrip s).data |> splitCharsOn '\n').map
            (fun cs => strStrip (String.mk cs))).filter fun q => q != ""
        .ok (llm_questions.take 3)

/-- `OllamaAdversarialValidator._generate_adversarial_questions`
(lines 511-551).  The external Ollama client call of lines 538-542 is an
external collaborator; its one observable behaviour per call — returning a
response value or raising — is abstracted by the `chatResult` argument.
The base questions are computed before the `try` block; everything inside
the `try` (the client call and the response parsing) falls back to the
base questions on any exception. -/
def ollama_generate_adversarial_questions (chatResult : Except PyErr JValue)
    (analysis raw_data : JDict) (existing_issues : List String) :
    Except PyErr (List String) :=
  match generate_adversarial_questions analysis raw_data existing_issues with
  | .error e => .error e
  | .ok base_questions =>
    match (match chatResult with
      | .error e => .error e
      | .ok response => extractLlmQuestions response :
        Except PyErr (List String)) with
    | .ok llm_questions => .ok (base_questions ++ llm_questions)
    | .error _ => .ok base_questions

-- SECTION: helper lemmas

lemma jGet_insert_same (rd : JDict) (k : String) (v d : JValue) :
    jGet ((k, v) :: rd) k d = v := by
  simp [jGet, List.lookup]

lemma jGet_insert_ne (rd : JDict) (k k2 : String) (v d : JValue)
    (h : (k2 == k) = false) : jGet ((k, v) :: rd) k2 d = jGet rd k2 d := by
  simp [jGet, List.lookup, h]

lemma jGet_of_lookup_none (rd : JDict) (k : String) (d : JValue)
    (h : List.lookup k rd = none) : jGet rd k d = d := by
  simp [jGet, h]

lemma roundHalfEven_nonneg {q : ℚ} (h : 0 ≤ q) : 0 ≤ roundHalfEven q := by
  have hf : (0 : ℤ) ≤ ⌊q⌋ := Int.floor_nonneg.mpr h
  simp only [roundHalfEven]
  split_ifs <;> omega

lemma roundHalfEven_le {q : ℚ} {B : ℤ} (h : q ≤ B) : roundHalfEven q ≤ B := by
  have hf : ⌊q⌋ ≤ B := by
    calc ⌊q⌋ ≤ ⌊(B : ℚ)⌋ := Int.floor_le_floor h
    _ = B := Int.floor_intCast B
  simp only [roundHalfEven]
  split_ifs with h1 h2 h3
  · omega
  · -- the fractional part is at least one half, so the floor is below B
    have hq : (⌊q⌋ : ℚ) ≤ q - 1/2 := by
      push_neg at h1
      linarith
    have : (⌊q⌋ : ℚ) < (B : ℚ) := by linarith
    have : ⌊q⌋ < B := by exact_mod_cast this
    omega
  · omega
  · have hq : (⌊q⌋ : ℚ) ≤ q - 1/2 := by
      push_neg at h1
      linarith
    have : (⌊q⌋ : ℚ) < (B : ℚ) := by linarith
    have : ⌊q⌋ < B := by exact_mod_cast this
    omega

lemma round3_nonneg {q : ℚ} (h : 0 ≤ q) : 0 ≤ round3 q := by
  unfold round3
  have := roundHalfEven_nonneg (q := q * 1000) (by linarith)
  positivity

lemma round3_le_one {q : ℚ} (h : q ≤ 1) : round3 q ≤ 1 := by
  unfold round3
  have hb : q * 1000 ≤ ((1000 : ℤ) : ℚ) := by push_cast; linarith
  have := roundHalfEven_le hb
  rw [div_le_one (by norm_num)]
  exact_mod_cast this

lemma applyContradictions_fst (fstr : String) :
    ∀ (ps : List (String × String)) (s : ℚ) (iss : List String),
      ∃ c : ℚ, 0 ≤ c ∧ c ≤ 1 ∧
        (applyContradictions fstr ps (s, iss)).1 = s * c := by
  intro ps
  induction ps with
  | nil =>
    intro s iss
    exact ⟨1, by norm_num, by norm_num, by simp [applyContradictions]⟩
  | cons p rest ih =>
    intro s iss
    obtain ⟨pos, neg⟩ := p
    unfold applyContradictions
    split_ifs with h
    · obtain ⟨c, h0, h1, he⟩ :=
        ih (s * (9/10)) (iss ++ [contradictionIssue pos neg])
      exact ⟨9/10 * c, by positivity, by nlinarith, by rw [he]; ring⟩
    · exact ih s iss

lemma applyContradictions_mem (fstr : String) (x : String) :
    ∀ (ps : List (String × String)) (s : ℚ) (iss : List String),
      x ∈ iss → x ∈ (applyContradictions fstr ps (s, iss)).2 := by
  intro ps
  induction ps with
  | nil =>
    intro s iss hx
    simpa [applyContradictions] using hx
  | cons p rest ih =>
    intro s iss hx
    obtain ⟨pos, neg⟩ := p
    unfold applyContradictions
    split_ifs with h
    · exact ih _ _ (List.mem_append_left _ hx)
    · exact ih _ _ hx

/-- Forward characterization of `validate`: once the three fallible stages
are known to succeed, the result record is determined. -/
lemma validate_eq (v : AdversarialValidator) (e : String) (a rd : JDict)
    (ef : Option (List String)) (cons lg : ℚ) (ci li qs : List String)
    (hs : check_consistency a rd = .ok (cons, ci))
    (hl : check_logic a rd = .ok (lg, li))
    (hq : generate_adversarial_questions a rd
      ((check_completeness a rd ef).2 ++ (ci ++ li)) = .ok qs) :
    validate v e a rd ef = .ok {
      overall_confidence := round3 (max 0
        ((check_completeness a rd ef).1 * v.completeness_weight +
          cons * v.consistency_weight + lg * v.logic_weight -
          min ((((check_completeness a rd ef).2 ++ (ci ++ li)).length : ℚ) *
            (5/100)) (3/10)))
      completeness_score := round3 (check_completeness a rd ef).1
      consistency_score := round3 cons
      logic_score := round3 lg
      issues_found := (check_completeness a rd ef).2 ++ (ci ++ li)
      adversarial_questions := qs
      recommended_actions := generate_recommendations
        (check_completeness a rd ef).1 cons lg
        ((check_completeness a rd ef).2 ++ (ci ++ li)) qs
      should_rerun :=
        decide (max 0
          ((check_completeness a rd ef).1 * v.completeness_weight +
            cons * v.consistency_weight + lg * v.logic_weight -
            min ((((check_completeness a rd ef).2 ++ (ci ++ li)).length : ℚ) *
              (5/100)) (3/10)) < v.confidence_threshold) ||
        decide (v.max_issues_before_rerun <
          ((check_completeness a rd ef).2 ++ (ci ++ li)).length) } := by
  unfold validate
  rw [hs, hl]
  simp only []
  rw [hq]

lemma check_completeness_fst_bounds (a rd : JDict)
    (ef : Option (List String)) :
    0 ≤ (check_completeness a rd ef).1 ∧ (check_completeness a rd ef).1 ≤ 1 := by
  simp only [check_completeness]
  split_ifs with h
  · norm_num
  · have hne : availableSources rd ≠ [] := by
      simpa [List.isEmpty_iff] using h
    have hpos : 0 < ((availableSources rd).length : ℚ) := by
      have : 0 < (availableSources rd).length := List.length_pos.mpr hne
      exact_mod_cast this
    constructor
    · positivity
    · rw [div_le_one hpos]
      have hle : (sourcesReferenced a rd).length ≤
          (availableSources rd).length := by
        simpa [sourcesReferenced] using
          List.length_filter_le
            (isReferenced (analysisTextOf a) (analysisKeysOf a))
            (availableSources rd)
      exact_mod_cast hle

lemma applyContradictions_fst_bounds (fstr : String) :
    ∀ (ps : List (String × String)) {s : ℚ} (iss : List String),
      0 ≤ s → s ≤ 1 →
      0 ≤ (applyContradictions fstr ps (s, iss)).1 ∧
        (applyContradictions fstr ps (s, iss)).1 ≤ 1 := by
  intro ps
  induction ps with
  | nil =>
    intro s iss h0 h1
    simpa [applyContradictions] using ⟨h0, h1⟩
  | cons p rest ih =>
    intro s iss h0 h1
    obtain ⟨pos, neg⟩ := p
    unfold applyContradictions
    split_ifs with h
    · exact ih _ (by positivity) (by nlinarith)
    · exact ih _ h0 h1

lemma check_consistency_ok_bounds {a rd : JDict} {s : ℚ} {iss : List String}
    (h : check_consistency a rd = .ok (s, iss)) : 0 ≤ s ∧ s ≤ 1 := by
  simp only [check_consistency] at h
  split at h
  · exact absurd h (by simp)
  next b1 _ =>
    split at h
    · exact absurd h (by simp)
    next b2 _ =>
      split at h
      · exact absurd h (by simp)
      next b3 _ =>
        split at h
        · exact absurd h (by simp)
        next items _ =>
          have hfst := congrArg Prod.fst (Except.ok.inj h)
          dsimp only at hfst
          rw [← hfst]
          refine applyContradictions_fst_bounds _ _ _ ?_ ?_
          · cases b1 <;> cases b2 <;> cases b3 <;> norm_num
          · cases b1 <;> cases b2 <;> cases b3 <;> norm_num

-- SECTION: claim theorems

/-- C1: for the empty inputs `analysis = {}` and `raw_data = {}` under the
default configuration, the code returns a fully confident result with
`should_rerun = false`: all three scores evaluate to 1, there are no
issues, the weighted sum is 1 (0.9999999999999999 in Python floats, still
at least the 0.7 threshold), so the rerun flag is off.  This contradicts
the spec sentence and the repository test `test_empty_analysis`, which
assert `should_rerun == True` for this input. -/
theorem kong_c1_empty_input_result :
    validate defaultValidator "TEST" [] [] none = .ok {
      overall_confidence := 1
      completeness_score := 1
      consistency_score := 1
      logic_score := 1
      issues_found := []
      adversarial_questions := temporalScopeQuestions
      recommended_actions := ["APPROVED: Analysis passes adversarial validation"]
      should_rerun := false } := by
  with_unfolding_all rfl

/-- C2: `validate` is not total.  On the exact input of the repository
test `test_none_values` — `analysis = \x7b"score": None, "confidence":
None\x7d`, `raw_data = \x7b"data_quality_score": None\x7d` — the scorers
survive, but the question generator unconditionally evaluates
`data_quality < 80` on the `None` stored under `data_quality_score`,
which raises `TypeError`; no `ValidationResult` is produced. -/
theorem kong_c2_null_data_quality_raises :
    validate defaultValidator "TEST"
      [("score", JValue.null), ("confidence", JValue.null)]
      [("data_quality_score", JValue.null)] none = .error .typeError := by
  with_unfolding_all rfl

/-- The result of validating the empty analysis against the empty raw data
under the default configuration, shared by several witnesses. -/
def emptyValidationOutcome : ValidationResult :=
  { overall_confidence := 1
    completeness_score := 1
    consistency_score := 1
    logic_score := 1
    issues_found := []
    adversarial_questions := temporalScopeQuestions
    recommended_actions := ["APPROVED: Analysis passes adversarial validation"]
    should_rerun := false }

/-- C3: whenever `validate` returns, its stored `overall_confidence` is the
3-decimal rounding of `max 0 (completeness*w_c + consistency*w_s +
logic*w_l - min(len(issues)*0.05, 0.3))`, with the configured weights used
as given (no renormalization: the configuration `v` is arbitrary), and the
issues list is the concatenation of the issues of the three scorers. -/
theorem kong_c3_overall_confidence_formula
    (v : AdversarialValidator) (e : String) (a rd : JDict)
    (ef : Option (List String)) (cons lg : ℚ) (ci li qs : List String)
    (r : ValidationResult)
    (hs : check_consistency a rd = .ok (cons, ci))
    (hl : check_logic a rd = .ok (lg, li))
    (hq : generate_adversarial_questions a rd
      ((check_completeness a rd ef).2 ++ (ci ++ li)) = .ok qs)
    (hv : validate v e a rd ef = .ok r) :
    r.overall_confidence = round3 (max 0
      ((check_completeness a rd ef).1 * v.completeness_weight +
        cons * v.consistency_weight + lg * v.logic_weight -
        min ((r.issues_found.length : ℚ) * (5/100)) (3/10))) ∧
    r.issues_found = (check_completeness a rd ef).2 ++ (ci ++ li) := by
  have hve := validate_eq v e a rd ef cons lg ci li qs hs hl hq
  rw [hv] at hve
  have hr := Except.ok.inj hve
  subst hr
  exact ⟨rfl, rfl⟩

/-- C3 witness at the empty inputs. -/
theorem kong_c3_overall_confidence_formula_witness :
    emptyValidationOutcome.overall_confidence = round3 (max 0
      ((check_completeness [] [] none).1 * defaultValidator.completeness_weight +
        1 * defaultValidator.consistency_weight +
        1 * defaultValidator.logic_weight -
        min ((emptyValidationOutcome.issues_found.length : ℚ) * (5/100))
          (3/10))) ∧
    emptyValidationOutcome.issues_found =
      (check_completeness [] [] none).2 ++ ([] ++ []) :=
  kong_c3_overall_confidence_formula defaultValidator "TEST" [] [] none 1 1
    [] [] temporalScopeQuestions emptyValidationOutcome
    (by with_unfolding_all rfl) (by with_unfolding_all rfl)
    (by with_unfolding_all rfl) (by with_unfolding_all rfl)

/-- C4: whenever `validate` returns, the rerun flag is set exactly when the
penalized, clamped, pre-rounding overall confidence is strictly below the
configured threshold, or the issue count strictly exceeds the configured
maximum. -/
theorem kong_c4_should_rerun_iff
    (v : AdversarialValidator) (e : String) (a rd : JDict)
    (ef : Option (List String)) (cons lg : ℚ) (ci li qs : List String)
    (r : ValidationResult)
    (hs : check_consistency a rd = .ok (cons, ci))
    (hl : check_logic a rd = .ok (lg, li))
    (hq : generate_adversarial_questions a rd
      ((check_completeness a rd ef).2 ++ (ci ++ li)) = .ok qs)
    (hv : validate v e a rd ef = .ok r) :
    r.should_rerun = true ↔
      (max 0 ((check_completeness a rd ef).1 * v.completeness_weight +
        cons * v.consistency_weight + lg * v.logic_weight -
        min ((r.issues_found.length : ℚ) * (5/100)) (3/10)) <
          v.confidence_threshold ∨
        v.max_issues_before_rerun < r.issues_found.length) := by
  have hve := validate_eq v e a rd ef cons lg ci li qs hs hl hq
  rw [hv] at hve
  have hr := Except.ok.inj hve
  subst hr
  simp [Bool.or_eq_true, decide_eq_true_eq]

/-- C4 witness at the empty inputs: the flag is off there because the
clamped confidence is 1 ≥ 0.7 and there are 0 ≤ 3 issues. -/
theorem kong_c4_should_rerun_iff_witness :
    emptyValidationOutcome.should_rerun = true ↔
      (max 0 ((check_completeness [] [] none).1 *
          defaultValidator.completeness_weight +
        1 * defaultValidator.consistency_weight +
        1 * defaultValidator.logic_weight -
        min ((emptyValidationOutcome.issues_found.length : ℚ) * (5/100))
          (3/10)) < defaultValidator.confidence_threshold ∨
        defaultValidator.max_issues_before_rerun <
          emptyValidationOutcome.issues_found.length) :=
  kong_c4_should_rerun_iff defaultValidator "TEST" [] [] none 1 1
    [] [] temporalScopeQuestions emptyValidationOutcome
    (by with_unfolding_all rfl) (by with_unfolding_all rfl)
    (by with_unfolding_all rfl) (by with_unfolding_all rfl)

/-- C5: the completeness score and the consistency score always lie in
[0, 1] — both as computed by the scorers and as stored (rounded) in the
result — and the stored overall confidence is never negative, thanks to
the `max 0` clamp before rounding. -/
theorem kong_c5_score_bounds
    (v : AdversarialValidator) (e : String) (a rd : JDict)
    (ef : Option (List String)) (cons lg : ℚ) (ci li qs : List String)
    (r : ValidationResult)
    (hs : check_consistency a rd = .ok (cons, ci))
    (hl : check_logic a rd = .ok (lg, li))
    (hq : generate_adversarial_questions a rd
      ((check_completeness a rd ef).2 ++ (ci ++ li)) = .ok qs)
    (hv : validate v e a rd ef = .ok r) :
    (0 ≤ (check_completeness a rd ef).1 ∧ (check_completeness a rd ef).1 ≤ 1) ∧
    (0 ≤ cons ∧ cons ≤ 1) ∧
    (0 ≤ r.completeness_score ∧ r.completeness_score ≤ 1) ∧
    (0 ≤ r.consistency_score ∧ r.consistency_score ≤ 1) ∧
    0 ≤ r.overall_confidence := by
  have hcb := check_completeness_fst_bounds a rd ef
  have hsb := check_consistency_ok_bounds hs
  have hve := validate_eq v e a rd ef cons lg ci li qs hs hl hq
  rw [hv] at hve
  have hr := Except.ok.inj hve
  subst hr
  refine ⟨hcb, hsb, ?_, ?_, ?_⟩
  · exact ⟨round3_nonneg hcb.1, round3_le_one hcb.2⟩
  · exact ⟨round3_nonneg hsb.1, round3_le_one hsb.2⟩
  · exact round3_nonneg (le_max_left 0 _)

/-- C5 witness at the empty inputs. -/
theorem kong_c5_score_bounds_witness :
    ((0:ℚ) ≤ (check_completeness [] [] none).1 ∧
      (check_completeness [] [] none).1 ≤ 1) ∧
    ((0:ℚ) ≤ 1 ∧ (1:ℚ) ≤ 1) ∧
    (0 ≤ emptyValidationOutcome.completeness_score ∧
      emptyValidationOutcome.completeness_score ≤ 1) ∧
    (0 ≤ emptyValidationOutcome.consistency_score ∧
      emptyValidationOutcome.consistency_score ≤ 1) ∧
    0 ≤ emptyValidationOutcome.overall_confidence :=
  kong_c5_score_bounds defaultValidator "TEST" [] [] none 1 1
    [] [] temporalScopeQuestions emptyValidationOutcome
    (by with_unfolding_all rfl) (by with_unfolding_all rfl)
    (by with_unfolding_all rfl) (by with_unfolding_all rfl)

lemma pyGt_pos_truthy {v : JValue} {q : ℚ} (hq : 0 < q)
    (h : pyGt v q = .ok true) : v.truthy = true := by
  cases v with
  | num x =>
    simp only [pyGt, pyNum, Except.ok.injEq, decide_eq_true_eq] at h
    simp only [JValue.truthy, decide_eq_true_eq]
    intro h0
    rw [h0] at h
    exact absurd h (by linarith)
  | bool b =>
    cases b
    · simp only [pyGt, pyNum, Except.ok.injEq, decide_eq_true_eq] at h
      norm_num at h
      exact absurd h (by linarith)
    · simp [JValue.truthy]
  | null => simp [pyGt, pyNum] at h
  | str s => simp [pyGt, pyNum] at h
  | arr xs => simp [pyGt, pyNum] at h
  | obj fs => simp [pyGt, pyNum] at h

/-- A true Python condition `confidence > 0.8` entails the `confidence`
truthiness conjunct, so the first consistency rule fires exactly when the
two comparisons of the claim hold. -/
lemma consistencyRule1_true (a rd : JDict)
    (hgt : pyGt (jGet a "confidence" (.num 0)) (8/10) = .ok true)
    (hlt : pyLt (jGet rd "data_quality_score" (.num 100)) 50 = .ok true) :
    consistencyRule1 a rd = .ok true := by
  have htr := pyGt_pos_truthy (by norm_num) hgt
  simp [consistencyRule1, htr, hgt, hlt]

lemma applyContradictions_factor_out {fstr : String}
    {ps : List (String × String)} {s0 : ℚ} {i0 : List String} {a : ℚ}
    {b : List String} (h : applyContradictions fstr ps (s0, i0) = (a, b)) :
    ∃ c : ℚ, 0 ≤ c ∧ c ≤ 1 ∧ a = s0 * c := by
  obtain ⟨c, h0, h1, he⟩ := applyContradictions_fst fstr ps s0 i0
  exact ⟨c, h0, h1, by rw [← he, h]⟩

/-- The analysis record of the concrete high-confidence example. -/
def c6Analysis : JDict :=
  [("confidence", JValue.num (95/100)), ("score", JValue.num 8)]

/-- The raw data record of the concrete high-confidence example. -/
def c6RawData : JDict := [("data_quality_score", JValue.num 30)]

/-- C6: whenever the Python conditions `confidence > 0.8` and
`data_quality_score < 50` evaluate to true, the consistency score is 0.6
times a factor in [0, 1] (the rule multiplies by 0.6 and later rules only
discount further) and the issue string naming both values is appended.  In
particular, on `analysis = \x7b"confidence": 0.95, "score": 8\x7d` and
`raw_data = \x7b"data_quality_score": 30\x7d`, the stored consistency
score is 0.48 < 1 and the first issue contains "confidence"
(case-insensitively). -/
theorem kong_c6_high_confidence_low_quality :
    (∀ (a rd : JDict) (s : ℚ) (iss : List String),
      pyGt (jGet a "confidence" (.num 0)) (8/10) = .ok true →
      pyLt (jGet rd "data_quality_score" (.num 100)) 50 = .ok true →
      check_consistency a rd = .ok (s, iss) →
      (∃ t : ℚ, 0 ≤ t ∧ t ≤ 1 ∧ s = (6/10) * t) ∧
      highConfLowQualityIssue (jGet a "confidence" (.num 0))
        (jGet rd "data_quality_score" (.num 100)) ∈ iss) ∧
    (∃ res : ValidationResult,
      validate defaultValidator "TEST" c6Analysis c6RawData none = .ok res ∧
      res.consistency_score < 1 ∧
      ∃ m ∈ res.issues_found, strContains (strLower m) "confidence" = true) := by
  constructor
  · intro a rd s iss hgt hlt hcc
    have hr1 := consistencyRule1_true a rd hgt hlt
    simp only [check_consistency, hr1] at hcc
    split at hcc
    · exact absurd hcc (by simp)
    next b2 _ =>
      split at hcc
      · exact absurd hcc (by simp)
      next b3 _ =>
        split at hcc
        · exact absurd hcc (by simp)
        next items _ =>
          have hpair := Except.ok.inj hcc
          have hsnd := congrArg Prod.snd hpair
          dsimp only at hsnd
          obtain ⟨c, hc0, hc1, hce⟩ := applyContradictions_factor_out hpair
          constructor
          · cases b2 <;> cases b3 <;> simp only [Bool.false_eq_true, if_false,
              if_true, reduceIte] at hce
            · exact ⟨c, hc0, hc1, by rw [hce]; ring⟩
            · exact ⟨(8/10) * c, by positivity, by nlinarith, by rw [hce]; ring⟩
            · exact ⟨(7/10) * c, by positivity, by nlinarith, by rw [hce]; ring⟩
            · exact ⟨(7/10) * ((8/10) * c), by positivity, by nlinarith,
                by rw [hce]; ring⟩
          · rw [← hsnd]
            refine applyContradictions_mem _ _ _ _ _ ?_
            simp
  · refine ⟨{
      overall_confidence := 151/250
      completeness_score := 1
      consistency_score := 12/25
      logic_score := 7/10
      issues_found :=
        [highConfLowQualityIssue (JValue.num (95/100)) (JValue.num 30),
         highConfFewFindingsIssue (JValue.num (95/100)) (JValue.arr []),
         veryHighConfIssue (JValue.num (95/100)) (JValue.arr [])]
      adversarial_questions := dataQualityQuestion (JValue.num 30) ::
        (temporalScopeQuestions ++ [confLoweringQuestion])
      recommended_actions :=
        ["REVIEW: Manual review needed for inconsistencies",
         "DEEP_DIVE: Many unanswered questions require investigation"]
      should_rerun := true }, by with_unfolding_all rfl, by norm_num, ?_⟩
    refine ⟨highConfLowQualityIssue (JValue.num (95/100)) (JValue.num 30),
      by simp, ?_⟩
    with_unfolding_all decide

/-- C6 witness: the general clause applied at the concrete example, whose
consistency check returns score 0.48 with the two issue strings. -/
theorem kong_c6_high_confidence_low_quality_witness :
    (∃ t : ℚ, 0 ≤ t ∧ t ≤ 1 ∧ (12/25 : ℚ) = (6/10) * t) ∧
    highConfLowQualityIssue (jGet c6Analysis "confidence" (.num 0))
      (jGet c6RawData "data_quality_score" (.num 100)) ∈
      [highConfLowQualityIssue (JValue.num (95/100)) (JValue.num 30),
       highConfFewFindingsIssue (JValue.num (95/100)) (JValue.arr [])] :=
  kong_c6_high_confidence_low_quality.1 c6Analysis c6RawData (12/25)
    [highConfLowQualityIssue (JValue.num (95/100)) (JValue.num 30),
     highConfFewFindingsIssue (JValue.num (95/100)) (JValue.arr [])]
    (by with_unfolding_all rfl) (by with_unfolding_all rfl)
    (by with_unfolding_all rfl)

lemma confidenceQuestions_spec (v : JValue) (cseg : List String)
    (h : confidenceQuestions v = .ok cseg) :
    (cseg = [confLoweringQuestion] ↔
      (v.truthy = true ∧ pyGt v (8/10) = .ok true)) ∧
    (cseg = [confRaisingQuestion] ↔
      (v.truthy = true ∧ pyGt v (8/10) = .ok false ∧
        pyLt v (5/10) = .ok true)) ∧
    (cseg = [confLoweringQuestion] ∨ cseg = [confRaisingQuestion] ∨
      cseg = []) := by
  simp only [confidenceQuestions] at h
  split at h
  next htr =>
    split at h
    · exact absurd h (by simp)
    next hgt =>
      have := Except.ok.inj h
      subst this
      refine ⟨⟨fun _ => ⟨htr, hgt⟩, fun _ => rfl⟩, ⟨?_, ?_⟩, .inl rfl⟩
      · intro hx
        exact absurd hx (by decide)
      · rintro ⟨-, hgf, -⟩
        rw [hgt] at hgf
        exact absurd hgf (by simp)
    next hgf =>
      split at h
      · exact absurd h (by simp)
      next hlt =>
        have := Except.ok.inj h
        subst this
        refine ⟨⟨?_, ?_⟩, ⟨fun _ => ⟨htr, hgf, hlt⟩, fun _ => rfl⟩,
          .inr (.inl rfl)⟩
        · intro hx
          exact absurd hx (by decide)
        · rintro ⟨-, hgt⟩
          rw [hgf] at hgt
          exact absurd hgt (by simp)
      next hltf =>
        have := Except.ok.inj h
        subst this
        refine ⟨⟨?_, ?_⟩, ⟨?_, ?_⟩, .inr (.inr rfl)⟩
        · intro hx
          exact absurd hx (by simp)
        · rintro ⟨-, hgt⟩
          rw [hgf] at hgt
          exact absurd hgt (by simp)
        · intro hx
          exact absurd hx (by simp)
        · rintro ⟨-, -, hlt⟩
          rw [hltf] at hlt
          exact absurd hlt (by simp)
  next htr =>
    have := Except.ok.inj h
    subst this
    have htrf : v.truthy = false := by
      cases hb : v.truthy
      · rfl
      · exact absurd hb htr
    refine ⟨⟨?_, ?_⟩, ⟨?_, ?_⟩, .inr (.inr rfl)⟩
    · intro hx
      exact absurd hx (by simp)
    · rintro ⟨ht, -⟩
      rw [htrf] at ht
      exact absurd ht (by simp)
    · intro hx
      exact absurd hx (by simp)
    · rintro ⟨ht, -⟩
      rw [htrf] at ht
      exact absurd ht (by simp)

/-- C7 (amended): the question list always decomposes around the segment
produced by the confidence branch; that segment is the lowering question
exactly when `confidence` is truthy and the Python comparison
`confidence > 0.8` is true, it is the raising question exactly when
`confidence` is truthy, not `> 0.8`, and `< 0.5`, and it is one of those
two or empty — so the two questions are mutually exclusive and neither
appears when confidence is absent, falsy (in particular an explicit 0 or
0.0), or lies in [0.5, 0.8].  The original claim counted an explicit 0 as
"defined and < 0.5"; the code treats any falsy confidence like an absent
one. -/
theorem kong_c7_confidence_question_rules
    (a rd : JDict) (iss qs : List String)
    (h : generate_adversarial_questions a rd iss = .ok qs) :
    ∃ pre cseg post,
      confidenceQuestions (jGet a "confidence" (.num 0)) = .ok cseg ∧
      qs = pre ++ (cseg ++ post) ∧
      (cseg = [confLoweringQuestion] ↔
        ((jGet a "confidence" (.num 0)).truthy = true ∧
          pyGt (jGet a "confidence" (.num 0)) (8/10) = .ok true)) ∧
      (cseg = [confRaisingQuestion] ↔
        ((jGet a "confidence" (.num 0)).truthy = true ∧
          pyGt (jGet a "confidence" (.num 0)) (8/10) = .ok false ∧
          pyLt (jGet a "confidence" (.num 0)) (5/10) = .ok true)) ∧
      (cseg = [confLoweringQuestion] ∨ cseg = [confRaisingQuestion] ∨
        cseg = []) := by
  simp only [generate_adversarial_questions] at h
  split at h
  · exact absurd h (by simp)
  next failedQ hfq =>
    split at h
    · exact absurd h (by simp)
    next dqlow hdq =>
      split at h
      · exact absurd h (by simp)
      next confQ hcq =>
        have hqs := Except.ok.inj h
        refine ⟨failedQ ++ ((if dqlow then
            [dataQualityQuestion (jGet rd "data_quality_score" (.num 100))]
          else []) ++ temporalScopeQuestions), confQ,
          (if iss.any fun issue => strContains (strLower issue) "contradictory"
           then [contradictionMetaQuestion] else []), hcq, ?_, ?_⟩
        · rw [← hqs]
          simp [List.append_assoc]
        · exact confidenceQuestions_spec _ _ hcq

/-- C7 counterexample: with `analysis = \x7b"confidence": 0\x7d` the
confidence is explicitly defined and strictly below 0.5, yet the generated
questions are exactly the four fixed temporal/scope questions and the
confidence-raising question is not among them — refuting the note of the claim
that a defined confidence of 0 falls in the raising branch. -/
theorem kong_c7_zero_confidence_counterexample :
    List.lookup "confidence" [("confidence", JValue.num 0)] =
      some (JValue.num 0) ∧
    (0 : ℚ) < 5/10 ∧
    generate_adversarial_questions [("confidence", JValue.num 0)] [] [] =
      .ok temporalScopeQuestions ∧
    confRaisingQuestion ∉ temporalScopeQuestions :=
  ⟨rfl, by norm_num, by with_unfolding_all rfl, by decide⟩

/-- C7 witness: at `confidence = 0.95` the confidence segment is exactly
the lowering question. -/
theorem kong_c7_confidence_question_rules_witness :
    confidenceQuestions (jGet [("confidence", JValue.num (95/100))]
      "confidence" (.num 0)) = .ok [confLoweringQuestion] := by
  obtain ⟨pre, cseg, post, hc, hqs, hiff1, hiff2, htri⟩ :=
    kong_c7_confidence_question_rules [("confidence", JValue.num (95/100))]
      [] [] (temporalScopeQuestions ++ [confLoweringQuestion])
      (by with_unfolding_all rfl)
  rw [hiff1.mpr ⟨by with_unfolding_all rfl, by with_unfolding_all rfl⟩] at hc
  exact hc

/-- C8: the completeness score is exactly 1 whenever the available source
set is empty — which happens exactly when every top-level entry of
`raw_data` fails the availability test (falsy value, reserved key, or a
dict filtered out by the success / non-success-key rule) — and otherwise
it is exactly `|referenced| / |available|`. -/
theorem kong_c8_completeness_ratio (a rd : JDict)
    (ef : Option (List String)) :
    (availableSources rd = [] → (check_completeness a rd ef).1 = 1) ∧
    (availableSources rd ≠ [] →
      (check_completeness a rd ef).1 =
        ((sourcesReferenced a rd).length : ℚ) /
          ((availableSources rd).length : ℚ)) ∧
    (availableSources rd = [] ↔
      ∀ kv ∈ rd, isAvailableSource kv = false) := by
  refine ⟨?_, ?_, ?_⟩
  · intro h
    simp [check_completeness, List.isEmpty_iff, h]
  · intro h
    simp [check_completeness, List.isEmpty_iff, h]
  · rw [availableSources, List.map_eq_nil_iff, List.filter_eq_nil_iff]
    simp

/-- C8 witness: the empty raw data has no available sources and scores 1;
a raw data with one untouched source scores by the ratio (here 0/1). -/
theorem kong_c8_completeness_ratio_witness :
    (check_completeness [] [] none).1 = 1 ∧
    (check_completeness [] [("earnings", JValue.str "x")] none).1 =
      ((sourcesReferenced [] [("earnings", JValue.str "x")]).length : ℚ) /
        ((availableSources [("earnings", JValue.str "x")]).length : ℚ) :=
  ⟨(kong_c8_completeness_ratio [] [] none).1 (by with_unfolding_all rfl),
   (kong_c8_completeness_ratio [] [("earnings", JValue.str "x")] none).2.1
     (by with_unfolding_all decide)⟩

/-- C9: for every behaviour of the external language-model client — any
returned value, however malformed, and any raised exception — the
LLM-backed generator returns the full rule-based list followed by some
(possibly empty) extra questions, and on a client exception it returns
exactly the rule-based list; no client failure escapes to the caller. -/
theorem kong_c9_llm_fallback (chatResult : Except PyErr JValue)
    (a rd : JDict) (iss base : List String)
    (h : generate_adversarial_questions a rd iss = .ok base) :
    (∃ extra, ollama_generate_adversarial_questions chatResult a rd iss =
      .ok (base ++ extra)) ∧
    (∀ e, chatResult = .error e →
      ollama_generate_adversarial_questions chatResult a rd iss =
        .ok base) := by
  constructor
  · unfold ollama_generate_adversarial_questions
    rw [h]
    rcases hinner : (match chatResult with
      | .error e => .error e
      | .ok response => extractLlmQuestions response :
        Except PyErr (List String)) with e | l
    · exact ⟨[], by simp⟩
    · exact ⟨l, rfl⟩
  · intro e he
    subst he
    unfold ollama_generate_adversarial_questions
    rw [h]

/-- C9 witness: a raising client yields exactly the rule-based list. -/
theorem kong_c9_llm_fallback_witness :
    ollama_generate_adversarial_questions (.error .typeError) [] [] [] =
      .ok temporalScopeQuestions :=
  (kong_c9_llm_fallback (.error .typeError) [] [] [] temporalScopeQuestions
    (by with_unfolding_all rfl)).2 .typeError rfl

/-- C10: when `raw_data` has no `data_quality_score` key, the consistency
scorer and the question generator behave exactly as if the key held 100
(so the low-data-quality discount can never fire — `consistencyRule1`
never yields true — and the data-quality question guard is false), while
the logic scorer is insensitive to any value stored under that key (it
reads it with default 0 and never uses it). -/
theorem kong_c10_missing_data_quality_default (a rd : JDict)
    (h : List.lookup "data_quality_score" rd = none) :
    check_consistency a rd =
      check_consistency a (("data_quality_score", JValue.num 100) :: rd) ∧
    (∀ iss, generate_adversarial_questions a rd iss =
      generate_adversarial_questions a
        (("data_quality_score", JValue.num 100) :: rd) iss) ∧
    consistencyRule1 a rd ≠ .ok true ∧
    dataQualityLow rd = .ok false ∧
    (∀ v, check_logic a (("data_quality_score", v) :: rd) =
      check_logic a rd) := by
  have hdq : jGet rd "data_quality_score" (.num 100) = .num 100 :=
    jGet_of_lookup_none rd _ _ h
  have hins : jGet (("data_quality_score", JValue.num 100) :: rd)
      "data_quality_score" (.num 100) = .num 100 :=
    jGet_insert_same rd _ _ _
  have hsf : jGet (("data_quality_score", JValue.num 100) :: rd)
      "sources_failed" (.arr []) = jGet rd "sources_failed" (.arr []) :=
    jGet_insert_ne rd _ _ _ _ (by decide)
  have hlt100 : pyLt (JValue.num 100) 50 = .ok false := by
    simp only [pyLt, pyNum]
    rw [decide_eq_false (by norm_num)]
  refine ⟨?_, ?_, ?_, ?_, ?_⟩
  · simp only [check_consistency, consistencyRule1, consistencyRule2,
      consistencyRule3, hdq, hins, hsf]
  · intro iss
    simp only [generate_adversarial_questions, dataQualityLow, hdq, hins, hsf]
  · intro hcon
    simp only [consistencyRule1, hdq] at hcon
    split at hcon
    · split at hcon
      · exact absurd hcon (by simp)
      · rw [hlt100] at hcon
        exact absurd hcon (by simp)
      · exact absurd hcon (by simp)
    · exact absurd hcon (by simp)
  · unfold dataQualityLow
    rw [hdq]
    simp only [pyLt, pyNum]
    rw [decide_eq_false (by norm_num)]
  · intro v
    have hss : jGet (("data_quality_score", v) :: rd)
        "sources_successful" (.arr []) =
        jGet rd "sources_successful" (.arr []) :=
      jGet_insert_ne rd _ _ _ _ (by decide)
    simp only [check_logic, logicRule1, logicRule2, hss]

/-- C10 witness: a raw data record carrying only `sources_failed`. -/
theorem kong_c10_missing_data_quality_default_witness :
    consistencyRule1 [] [("sources_failed", JValue.arr [JValue.str "a"])] ≠
      .ok true ∧
    dataQualityLow [("sources_failed", JValue.arr [JValue.str "a"])] =
      .ok false :=
  ⟨(kong_c10_missing_data_quality_default []
      [("sources_failed", JValue.arr [JValue.str "a"])] rfl).2.2.1,
   (kong_c10_missing_data_quality_default []
      [("sources_failed", JValue.arr [JValue.str "a"])] rfl).2.2.2.1⟩
